import Mathlib

/-!
Verification of the point-tracker worker of `ftnoir_tracker_pt.cpp`
(opentrack point tracker): settings hot-apply mailbox, worker loop with
command flags, and the pose-to-Euler-angle conversion in `Tracker::data`.

Machine floating-point values are embedded as real numbers; Qt/OpenCV GUI
calls (widget layout, line drawing) and the opaque collaborators (camera,
point extractor, point tracker) are modelled as abstract state or function
parameters, following the interfaces the file uses.
-/

namespace PT

/-- Two-argument arctangent, the semantics of C's `atan2(y, x)`. -/
noncomputable def atan2 (y x : ℝ) : ℝ :=
  if 0 < x then Real.arctan (y / x)
  else if x < 0 then
    (if 0 ≤ y then Real.arctan (y / x) + Real.pi else Real.arctan (y / x) - Real.pi)
  else
    (if 0 < y then Real.pi / 2 else if y < 0 then -(Real.pi / 2) else 0)

/-- Modelled from the spec: the radians→degrees conversion factor `rad2deg`
(declared in a header not part of this excerpt); "converted from radians to
degrees". -/
noncomputable def rad2deg : ℝ := 180 / Real.pi

/-- An affine pose: 3×3 rotation matrix plus translation vector
(`Affine` from the point-tracker header). -/
structure Affine where
  R : Matrix (Fin 3) (Fin 3) ℝ
  t : Fin 3 → ℝ

/-- Modelled from the spec: composition of affine poses (`Affine::operator*`
lives in a header not part of this excerpt); "Compose the camera-to-model
Pose with a fixed head-to-model offset translation". Rigid-transform
composition: rotations multiply, translations chain through the left
rotation. -/
noncomputable def Affine.mul (A B : Affine) : Affine :=
  ⟨A.R * B.R, A.R.mulVec B.t + A.t⟩

/-- One settings snapshot; field names follow the accesses `apply_inner`
makes on the `settings` object. -/
structure Settings where
  cam_index : ℤ
  cam_res_x : ℤ
  cam_res_y : ℤ
  cam_fps : ℤ
  threshold : ℤ
  threshold_secondary : ℤ
  min_point_size : ℝ
  max_point_size : ℝ
  m01_x : ℝ
  m01_y : ℝ
  m01_z : ℝ
  m02_x : ℝ
  m02_y : ℝ
  m02_z : ℝ
  t_MH_x : ℝ
  t_MH_y : ℝ
  t_MH_z : ℝ

/-- The rigid point model, constructed from two geometry vectors
(`PointModel(M01, M02)`); its solver internals are an opaque collaborator. -/
structure PointModel where
  M01 : Fin 3 → ℝ
  M02 : Fin 3 → ℝ

/-- Modelled from the spec: the model's required point count
(`PointModel::N_POINTS`, declared in a header not part of this excerpt) is
"exactly 3". -/
def PointModel.N_POINTS : ℕ := 3

/-- Camera Source configuration, as pushed by `set_device_index`,
`set_res`, `set_fps`. -/
structure CameraState where
  device_index : ℤ
  res_x : ℤ
  res_y : ℤ
  fps : ℤ

/-- Point Extractor configuration fields assigned by `apply_inner`. -/
structure ExtractorState where
  threshold_val : ℤ
  threshold_secondary_val : ℤ
  min_size : ℝ
  max_size : ℝ

/-- The worker-visible state of a `Tracker`: the pending-settings slot
(`new_settings`, an atomic pointer modelled as `Option`), the collaborator
configurations `apply_inner` mutates, the head-to-model offset `t_MH`, the
point tracker's pose, and the sequence of frames published to the video
widget. `Frame` is the opaque image type (`cv::Mat`). -/
structure TrackerState (Frame : Type) where
  pending : Option Settings
  model : PointModel
  camera : CameraState
  extractor : ExtractorState
  t_MH : Fin 3 → ℝ
  pose : Affine
  displayed : List Frame

variable {Frame Point : Type}

/-- `Tracker::apply`: store (a pointer to) the snapshot into the
pending-settings slot, overwriting any unconsumed previous one. -/
def apply (st : TrackerState Frame) (s : Settings) : TrackerState Frame :=
  { st with pending := some s }

/-- The mutation block of `Tracker::apply_inner` once a snapshot `s` has
been taken from the slot: rebuild the model from `(m01, m02)`, push camera
index/resolution/fps, push extractor thresholds and size bounds, recompute
`t_MH`. -/
def applySettings (s : Settings) (st : TrackerState Frame) : TrackerState Frame :=
  { st with
    model := ⟨![s.m01_x, s.m01_y, s.m01_z], ![s.m02_x, s.m02_y, s.m02_z]⟩
    camera := ⟨s.cam_index, s.cam_res_x, s.cam_res_y, s.cam_fps⟩
    extractor := ⟨s.threshold, s.threshold_secondary, s.min_point_size, s.max_point_size⟩
    t_MH := ![s.t_MH_x, s.t_MH_y, s.t_MH_z] }

/-- `Tracker::apply_inner`: atomically exchange the slot with null; if it
was empty return immediately, otherwise apply the taken snapshot. -/
def apply_inner (st : TrackerState Frame) : TrackerState Frame :=
  match st.pending with
  | none => st
  | some s => applySettings s { st with pending := none }

/-- The fixed basis-change matrix `R_EG` of `Tracker::data`
(opengl frame to roll-pitch-yaw frame: `-z -> x, y -> z, x -> -y`). -/
def R_EG : Matrix (Fin 3) (Fin 3) ℝ :=
  !![0, 0, -1;
    -1, 0, 0;
     0, 1, 0]

/-- The six outputs `Tracker::data` writes into the `THeadPoseData` array,
by the named indices used there. -/
structure HeadPose where
  yaw : ℝ
  pitch : ℝ
  roll : ℝ
  tx : ℝ
  ty : ℝ
  tz : ℝ

/-- The Euler-angle extraction of `Tracker::data`:
`beta = atan2(-R(2,0), sqrt(R(2,1)² + R(2,2)²))`, `alpha = atan2(R(1,0), R(0,0))`,
`gamma = atan2(R(2,1), R(2,2))`, returned as `(alpha, beta, gamma)`. -/
noncomputable def eulerAngles (R : Matrix (Fin 3) (Fin 3) ℝ) : ℝ × ℝ × ℝ :=
  (atan2 (R 1 0) (R 0 0),
   atan2 (-(R 2 0)) (Real.sqrt (R 2 1 * R 2 1 + R 2 2 * R 2 2)),
   atan2 (R 2 1) (R 2 2))

/-- `Tracker::data`, as a function of the stored pose `X_CM`
(`point_tracker.pose()`) and the head-to-model offset `t_MH`: compose
`X_GH = X_CM * (I, t_MH)`, conjugate the rotation by `R_EG`, extract Euler
angles, scale to degrees, and divide the translation by 10. -/
noncomputable def data (X_CM : Affine) (t_MH : Fin 3 → ℝ) : HeadPose :=
  let X_MH : Affine := ⟨1, t_MH⟩
  let X_GH := X_CM.mul X_MH
  let R := R_EG * X_GH.R * R_EG.transpose
  let t := X_GH.t
  let angles := eulerAngles R
  { yaw := rad2deg * angles.1
    pitch := -(rad2deg * angles.2.1)
    roll := rad2deg * angles.2.2
    tx := t 0 / 10
    ty := t 1 / 10
    tz := t 2 / 10 }

/-- Modelled from the spec: the `ABORT` command bit (the `Command` enum
values live in a header not part of this excerpt); the Command Flags are "a
bitset with members `ABORT`, `PAUSE`", modelled as distinct bits. -/
def ABORT : ℕ := 1

/-- Modelled from the spec: the `PAUSE` command bit, the other member of
the Command Flags bitset, a bit distinct from `ABORT`. -/
def PAUSE : ℕ := 2

/-- `Tracker::set_command`: `commands |= command`. -/
def set_command (commands command : ℕ) : ℕ := commands ||| command

/-- Per-iteration input to the worker loop: what `camera.get_frame`
produced (`new_frame` and the frame buffer). -/
structure IterIn (Frame : Type) where
  new_frame : Bool
  frame : Frame

/-- One iteration of the body of `Tracker::run`'s while loop: consume
pending settings, fetch a frame (given as input), and if a new non-empty
frame arrived, extract points, annotate the frame (the `cv::line` cross
drawing, opaque here), feed the detection set to the point tracker exactly
when its size equals `PointModel::N_POINTS`, and publish the annotated
frame to the video widget. `frameEmpty` models `cv::Mat::empty`, `extract`
models `point_extractor.extract_points` (state-dependent), `annotate` the
drawing loop, and `track` the pose update `point_tracker.track`. -/
def runIteration (frameEmpty : Frame → Bool)
    (extract : ExtractorState → Frame → List Point)
    (annotate : Frame → List Point → Frame)
    (track : List Point → PointModel → Affine → Affine)
    (inp : IterIn Frame) (st : TrackerState Frame) : TrackerState Frame :=
  let st1 := apply_inner st
  if inp.new_frame && !(frameEmpty inp.frame) then
    let points := extract st1.extractor inp.frame
    let annotated := annotate inp.frame points
    let st2 :=
      if points.length = PointModel.N_POINTS then
        { st1 with pose := track points st1.model st1.pose }
      else st1
    { st2 with displayed := st2.displayed ++ [annotated] }
  else st1

/-- `Tracker::run`'s loop: before each iteration the guard
`(commands & ABORT) == 0` is evaluated on the command word observed at that
check; while it holds, one body iteration runs. `checks` supplies, per
check, the observed command word and that iteration's frame input. -/
def runTracker (frameEmpty : Frame → Bool)
    (extract : ExtractorState → Frame → List Point)
    (annotate : Frame → List Point → Frame)
    (track : List Point → PointModel → Affine → Affine)
    (checks : List (ℕ × IterIn Frame)) (st : TrackerState Frame) : TrackerState Frame :=
  match checks with
  | [] => st
  | (c, inp) :: rest =>
    if c &&& ABORT = 0 then
      runTracker frameEmpty extract annotate track rest
        (runIteration frameEmpty extract annotate track inp st)
    else st

/-- The number of body iterations `Tracker::run` executes for a given
sequence of command words observed at successive `(commands & ABORT) == 0`
checks. -/
def iterationsRun (cs : List ℕ) : ℕ :=
  (cs.takeWhile (fun c => c &&& ABORT == 0)).length

/-- The named steps of `Tracker::data` in program order. -/
inductive DataStep
  | poseRead
  | composeOffset
  | conjugate
  | extractAngles
  | writeAngles
  | writeTranslation
  deriving DecidableEq

/-- The steps of `Tracker::data` in source order, each paired with whether
the `QMutexLocker` on the shared mutex is in scope at that step: the
locker is constructed only after `point_tracker.pose()`, the composition
with `t_MH`, the `R_EG` conjugation and the angle extraction, guarding
only the writes into the output array. -/
def dataLockTrace : List (DataStep × Bool) :=
  [(DataStep.poseRead, false),
   (DataStep.composeOffset, false),
   (DataStep.conjugate, false),
   (DataStep.extractAngles, false),
   (DataStep.writeAngles, true),
   (DataStep.writeTranslation, true)]

/-- Whether every occurrence of step `s` in `Tracker::data` executes with
the shared mutex held. -/
def lockHeldDuring (s : DataStep) : Bool :=
  (dataLockTrace.filter (fun p => p.1 = s)).all (fun p => p.2)

/-- The worker loop's frame-processing step holds the same mutex around
point extraction, tracking and frame publication (`QMutexLocker` at the
top of the `new_frame` block in `Tracker::run`). -/
def workerHoldsLockDuringTrack : Bool := true

/-- A null-pointer dereference outcome. -/
inductive DerefError
  | nullDeref
  deriving DecidableEq

/-- The construction/destruction-relevant state of a `Tracker` object:
`video_widget` and `video_frame` pointers (null modelled as `none`) and
the command word. `FramePtr` stands for `QFrame*` values. -/
structure LifeState (FramePtr : Type) where
  video_widget : Option Unit
  video_frame : Option FramePtr
  commands : ℕ

/-- `Tracker::Tracker`: initializes `commands` to 0 and both widget
pointers to null (`new_settings` starts null as well). -/
def trackerInit (FramePtr : Type) : LifeState FramePtr :=
  ⟨none, none, 0⟩

/-- The widget/frame effect of `Tracker::start_tracker`: stores the parent
window into `video_frame` and creates the video widget (the Qt layout
calls are opaque GUI effects). -/
def start_tracker (st : LifeState FramePtr) (parent_window : FramePtr) :
    LifeState FramePtr :=
  { st with video_frame := some parent_window, video_widget := some () }

/-- `Tracker::~Tracker`: sets `ABORT`, joins the thread, deletes and nulls
`video_widget`, then evaluates `video_frame->layout()` — a dereference of
`video_frame`, which faults when that pointer is still null. -/
def trackerDestructor (st : LifeState FramePtr) :
    Except DerefError (LifeState FramePtr) :=
  let st1 := { st with commands := set_command st.commands ABORT, video_widget := none }
  match st1.video_frame with
  | none => .error .nullDeref
  | some _ => .ok st1

/-- The Pose Accessor algorithm as the specification words it (§4.3):
compose with the head-to-model offset, conjugate by the basis change,
extract `beta`, `alpha`, `gamma` by the atan2 decomposition with
`sqrt(R'[2][1]² + R'[2][2]²)`, output `yaw = alpha`, `pitch = -beta`,
`roll = gamma` in degrees and the translation divided by 10. -/
noncomputable def dataSpec (X_CM : Affine) (t_MH : Fin 3 → ℝ) : HeadPose :=
  let Rt := X_CM.mul ⟨1, t_MH⟩
  let R' := R_EG * Rt.R * R_EG.transpose
  let beta := atan2 (-(R' 2 0)) (Real.sqrt ((R' 2 1) ^ 2 + (R' 2 2) ^ 2))
  let alpha := atan2 (R' 1 0) (R' 0 0)
  let gamma := atan2 (R' 2 1) (R' 2 2)
  { yaw := rad2deg * alpha
    pitch := rad2deg * (-beta)
    roll := rad2deg * gamma
    tx := Rt.t 0 / 10
    ty := Rt.t 1 / 10
    tz := Rt.t 2 / 10 }

lemma atan2_zero_of_pos (x : ℝ) (hx : 0 < x) : atan2 0 x = 0 := by
  simp [atan2, hx]

lemma R_EG_mul_transpose : R_EG * R_EG.transpose = 1 := by
  ext i j
  fin_cases i <;> fin_cases j <;>
    simp [R_EG, Matrix.mul_apply, Matrix.transpose, Fin.sum_univ_three, Matrix.one_apply]

lemma R_EG_mulVec (v : Fin 3 → ℝ) :
    R_EG.mulVec v = ![-(v 2), -(v 0), v 1] := by
  funext i
  fin_cases i <;>
    simp [R_EG, Matrix.mulVec, Matrix.dotProduct, Fin.sum_univ_three]

/-- C1: `Tracker::data` computes exactly the specified conversion — the
composed pose `X_GH = X_CM * (I, t_MH)`, the conjugation
`R' = R_EG · R · R_EGᵗ`, the atan2-based Euler extraction with
`yaw = alpha`, `pitch = -beta`, `roll = gamma` in degrees — and the
hardcoded `R_EG` realizes the stated axis mapping out-x = −camera-z,
out-y = −camera-x, out-z = camera-y. -/
theorem data_refines_spec :
    (∀ (X_CM : Affine) (t_MH : Fin 3 → ℝ), data X_CM t_MH = dataSpec X_CM t_MH)
    ∧ ∀ v : Fin 3 → ℝ, R_EG.mulVec v = ![-(v 2), -(v 0), v 1] := by
  refine ⟨fun X_CM t_MH => ?_, R_EG_mulVec⟩
  simp only [data, dataSpec, eulerAngles, pow_two, mul_neg, neg_neg]

/-- C7: the translation outputs of `Tracker::data` are exactly the
components of the composed camera-to-head translation divided by 10. -/
theorem data_translation_div10 (X_CM : Affine) (t_MH : Fin 3 → ℝ) :
    (data X_CM t_MH).tx = (X_CM.mul ⟨1, t_MH⟩).t 0 / 10
    ∧ (data X_CM t_MH).ty = (X_CM.mul ⟨1, t_MH⟩).t 1 / 10
    ∧ (data X_CM t_MH).tz = (X_CM.mul ⟨1, t_MH⟩).t 2 / 10 :=
  ⟨rfl, rfl, rfl⟩

/-- C8: converting an identity stored pose (R = I, t = 0) with zero head
offset yields all-zero angles and translation — the conversion never
consults the Point Model, so this holds for every model geometry — and any
conjugated rotation whose five relevant entries match the identity yields
zero yaw, pitch and roll. -/
theorem identity_pose_zero_angles :
    data ⟨1, 0⟩ 0 = ⟨0, 0, 0, 0, 0, 0⟩
    ∧ ∀ R' : Matrix (Fin 3) (Fin 3) ℝ,
        R' 2 1 = 0 → R' 2 2 = 1 → R' 2 0 = 0 → R' 1 0 = 0 → R' 0 0 = 1 →
        eulerAngles R' = (0, 0, 0) := by
  have h1 : atan2 0 1 = 0 := atan2_zero_of_pos 1 one_pos
  constructor
  · simp [data, Affine.mul, eulerAngles, R_EG_mul_transpose, Matrix.one_apply,
      Matrix.mulVec_zero, h1]
  · intro R' h21 h22 h20 h10 h00
    simp [eulerAngles, h21, h22, h20, h10, h00, h1]

/-- C8 witness: the identity matrix satisfies the five entry conditions and
the decomposition sends it to zero angles. -/
theorem identity_pose_zero_angles_witness :
    ((1 : Matrix (Fin 3) (Fin 3) ℝ) 2 1 = 0
      ∧ (1 : Matrix (Fin 3) (Fin 3) ℝ) 2 2 = 1
      ∧ (1 : Matrix (Fin 3) (Fin 3) ℝ) 2 0 = 0
      ∧ (1 : Matrix (Fin 3) (Fin 3) ℝ) 1 0 = 0
      ∧ (1 : Matrix (Fin 3) (Fin 3) ℝ) 0 0 = 1)
    ∧ eulerAngles (1 : Matrix (Fin 3) (Fin 3) ℝ) = (0, 0, 0) :=
  ⟨⟨by simp [Matrix.one_apply], by simp [Matrix.one_apply], by simp [Matrix.one_apply],
    by simp [Matrix.one_apply], by simp [Matrix.one_apply]⟩,
   identity_pose_zero_angles.2 1 (by simp [Matrix.one_apply]) (by simp [Matrix.one_apply])
     (by simp [Matrix.one_apply]) (by simp [Matrix.one_apply]) (by simp [Matrix.one_apply])⟩

lemma pause_preserves_abort_bit (c : ℕ) : (c ||| PAUSE) &&& ABORT = c &&& ABORT := by
  simp only [PAUSE, ABORT, Nat.and_one_is_mod]
  rcases Nat.mod_two_eq_zero_or_one c with h | h
  · have h2 : ¬((c ||| 2) % 2 = 1) := by
      rw [Nat.or_mod_two_eq_one]
      omega
    have h3 := Nat.mod_two_eq_zero_or_one (c ||| 2)
    omega
  · have h2 : (c ||| 2) % 2 = 1 := Nat.or_mod_two_eq_one.mpr (Or.inl h)
    omega

lemma abort_set_bit (c : ℕ) : (c ||| ABORT) &&& ABORT ≠ 0 := by
  simp only [ABORT, Nat.and_one_is_mod]
  have h2 : (c ||| 1) % 2 = 1 := Nat.or_mod_two_eq_one.mpr (Or.inr rfl)
  omega

lemma and_abort_eq_of_lor_pause_eq {a b : ℕ} (h : a ||| PAUSE = b ||| PAUSE) :
    a &&& ABORT = b &&& ABORT := by
  rw [← pause_preserves_abort_bit a, ← pause_preserves_abort_bit b, h]

lemma apply_inner_of_pending_none (st : TrackerState Frame) (h : st.pending = none) :
    apply_inner st = st := by
  unfold apply_inner
  rw [h]

lemma apply_inner_pose (st : TrackerState Frame) : (apply_inner st).pose = st.pose := by
  cases h : st.pending <;> simp [apply_inner, h, applySettings]

lemma apply_inner_displayed (st : TrackerState Frame) :
    (apply_inner st).displayed = st.displayed := by
  cases h : st.pending <;> simp [apply_inner, h, applySettings]

lemma foldl_apply_pending :
    ∀ (ss : List Settings) (st : TrackerState Frame) (h : ss ≠ []),
      (ss.foldl apply st).pending = some (ss.getLast h)
  | [], _, h => absurd rfl h
  | [a], st, _ => rfl
  | a :: b :: t, st, _ => by
    rw [List.foldl_cons, foldl_apply_pending (b :: t) (apply st a) (by simp)]
    exact congrArg some (List.getLast_cons (by simp)).symm

/-- C2: in `Tracker::data` the shared mutex is NOT held while the pose is
read — the `QMutexLocker` is constructed only after `point_tracker.pose()`,
the offset composition, the conjugation and the angle extraction, so it
guards only the writes into the caller's output array. -/
theorem data_poseRead_unlocked :
    lockHeldDuring DataStep.poseRead = false
    ∧ (DataStep.poseRead, false) ∈ dataLockTrace
    ∧ lockHeldDuring DataStep.writeAngles = true
    ∧ lockHeldDuring DataStep.writeTranslation = true := by
  decide

/-- C3: last-writer-wins for the pending-settings slot: after any nonempty
sequence of `apply` calls, the slot holds exactly the last snapshot;
`apply_inner` then applies exactly that snapshot and clears the slot; and
a second `apply_inner` is a no-op, so the snapshot is consumed at most
once. -/
theorem apply_last_writer_wins (st : TrackerState Frame) (ss : List Settings)
    (h : ss ≠ []) :
    (ss.foldl apply st).pending = some (ss.getLast h)
    ∧ apply_inner (ss.foldl apply st)
        = applySettings (ss.getLast h) { ss.foldl apply st with pending := none }
    ∧ apply_inner (apply_inner (ss.foldl apply st)) = apply_inner (ss.foldl apply st) := by
  have hp := foldl_apply_pending ss st h
  have h1 : apply_inner (ss.foldl apply st)
      = applySettings (ss.getLast h) { ss.foldl apply st with pending := none } := by
    unfold apply_inner
    rw [hp]
  refine ⟨hp, h1, ?_⟩
  have h2 : (apply_inner (ss.foldl apply st)).pending = none := by
    rw [h1]
    rfl
  exact apply_inner_of_pending_none _ h2

/-- C5: the worker loop's guard: with ABORT clear the loop runs another
iteration (also when PAUSE is set, which leaves the ABORT bit untouched);
with ABORT observed set the loop exits with zero further iterations, in
particular right after `set_command(ABORT)`. -/
theorem loop_exits_only_on_abort (c : ℕ) (rest : List ℕ) :
    (c &&& ABORT = 0 → iterationsRun (c :: rest) = iterationsRun rest + 1)
    ∧ (c &&& ABORT = 0 →
        (c ||| PAUSE) &&& ABORT = 0
        ∧ iterationsRun ((c ||| PAUSE) :: rest) = iterationsRun rest + 1)
    ∧ (c &&& ABORT ≠ 0 → iterationsRun (c :: rest) = 0)
    ∧ iterationsRun (set_command c ABORT :: rest) = 0 := by
  refine ⟨fun h => ?_, fun h => ?_, fun h => ?_, ?_⟩
  · simp [iterationsRun, List.takeWhile_cons, h]
  · have hp : (c ||| PAUSE) &&& ABORT = 0 := by
      rw [pause_preserves_abort_bit]
      exact h
    exact ⟨hp, by simp [iterationsRun, List.takeWhile_cons, hp]⟩
  · simp [iterationsRun, List.takeWhile_cons, h]
  · have ha := abort_set_bit c
    simp [iterationsRun, List.takeWhile_cons, set_command, ha]

/-- C5 witness: at command word 0 the guard lets an iteration run, and
after `set_command(ABORT)` no iteration runs. -/
theorem loop_exits_only_on_abort_witness :
    ((0 : ℕ) &&& ABORT = 0 ∧ iterationsRun [0] = iterationsRun [] + 1)
    ∧ iterationsRun [set_command 0 ABORT] = 0 :=
  ⟨⟨by decide, (loop_exits_only_on_abort 0 []).1 (by decide)⟩,
   (loop_exits_only_on_abort 0 []).2.2.2⟩

/-- C6: `apply_inner` called with an empty pending slot is an identity on
the whole tracker state; in particular the point model, the camera
configuration, the extractor thresholds/size bounds and the head-to-model
offset are unchanged. -/
theorem apply_inner_empty_noop (st : TrackerState Frame) (h : st.pending = none) :
    apply_inner st = st
    ∧ (apply_inner st).model = st.model
    ∧ (apply_inner st).camera = st.camera
    ∧ (apply_inner st).extractor = st.extractor
    ∧ (apply_inner st).t_MH = st.t_MH := by
  have h0 := apply_inner_of_pending_none st h
  exact ⟨h0, by rw [h0], by rw [h0], by rw [h0], by rw [h0]⟩

/-- The all-zero settings snapshot, used to instantiate theorems at a
concrete input. -/
def s0 : Settings :=
  ⟨0, 0, 0, 0, 0, 0, 0, 0, 0, 0, 0, 0, 0, 0, 0, 0, 0⟩

/-- A snapshot that moves the head-to-model offset to `(10, 0, 0)`. -/
def s1 : Settings :=
  { s0 with t_MH_x := 10 }

/-- A concrete tracker state: empty slot, zero model and configurations,
identity pose, nothing displayed. -/
def st0 : TrackerState Unit :=
  ⟨none, ⟨0, 0⟩, ⟨0, 0, 0, 0⟩, ⟨0, 0, 0, 0⟩, 0, ⟨1, 0⟩, []⟩

/-- C6 witness: on a concrete state with an empty slot, `apply_inner` is a
no-op. -/
theorem apply_inner_empty_noop_witness :
    st0.pending = none ∧ apply_inner st0 = st0 :=
  ⟨rfl, (apply_inner_empty_noop st0 rfl).1⟩

/-- C3 witness: with two concrete snapshots requested in sequence, the
slot holds the second, which is the one `apply_inner` applies. -/
theorem apply_last_writer_wins_witness :
    ([s0, s1] ≠ ([] : List Settings))
    ∧ (([s0, s1] : List Settings).foldl apply st0).pending
        = some (([s0, s1] : List Settings).getLast (by simp))
    ∧ apply_inner (apply_inner (([s0, s1] : List Settings).foldl apply st0))
        = apply_inner (([s0, s1] : List Settings).foldl apply st0) :=
  ⟨by simp, (apply_last_writer_wins st0 [s0, s1] (by simp)).1,
   (apply_last_writer_wins st0 [s0, s1] (by simp)).2.2⟩

/-- An extractor that finds no points in any frame (an empty detection
set, size 0 ≠ 3). -/
def emptyExtract : ExtractorState → Unit → List Unit := fun _ _ => []

/-- A tracker state whose pending slot holds the snapshot moving the head
offset to `(10, 0, 0)`. -/
def cexSt : TrackerState Unit := { st0 with pending := some s1 }

/-- One worker iteration from `cexSt` with a new non-empty frame and an
empty detection set. -/
def cexSt' : TrackerState Unit :=
  runIteration (fun _ => false) emptyExtract (fun f _ => f) (fun _ _ p => p)
    ⟨true, ()⟩ cexSt

/-- C4 counterexample: an iteration whose detection set is empty (size
0 ≠ 3) leaves the stored pose unchanged, yet the subsequent pose read
differs from the one before the iteration, because the iteration also
consumed a pending settings snapshot that changed the head-to-model
offset. -/
theorem detection_miss_pose_read_cex :
    (emptyExtract (apply_inner cexSt).extractor ()).length ≠ PointModel.N_POINTS
    ∧ cexSt'.pose = cexSt.pose
    ∧ data cexSt'.pose cexSt'.t_MH ≠ data cexSt.pose cexSt.t_MH := by
  refine ⟨by decide, rfl, ?_⟩
  have h1 : cexSt'.pose = (⟨1, 0⟩ : Affine) := rfl
  have h2 : cexSt.pose = (⟨1, 0⟩ : Affine) := rfl
  have h3 : cexSt'.t_MH = ![(10 : ℝ), 0, 0] := rfl
  have h4 : cexSt.t_MH = (0 : Fin 3 → ℝ) := rfl
  intro h
  rw [h1, h2, h3, h4] at h
  have htx := congrArg HeadPose.tx h
  simp [data, Affine.mul, Matrix.one_mulVec, Matrix.mulVec_zero] at htx

/-- C4 (amended): in an iteration processing a new non-empty frame whose
detection set size differs from 3, the point tracker is not invoked and
the stored pose is unchanged, while the annotated frame is still
published; provided no pending settings snapshot is consumed in that
iteration, a subsequent pose read also returns the same value as before
the iteration. -/
theorem no_detections_pose_unchanged
    (fe : Frame → Bool) (extract : ExtractorState → Frame → List Point)
    (annotate : Frame → List Point → Frame)
    (track : List Point → PointModel → Affine → Affine)
    (inp : IterIn Frame) (st : TrackerState Frame)
    (hn : inp.new_frame = true) (he : fe inp.frame = false)
    (hlen : (extract (apply_inner st).extractor inp.frame).length ≠ PointModel.N_POINTS) :
    (runIteration fe extract annotate track inp st).pose = st.pose
    ∧ (runIteration fe extract annotate track inp st).displayed
        = st.displayed
            ++ [annotate inp.frame (extract (apply_inner st).extractor inp.frame)]
    ∧ (st.pending = none →
        data (runIteration fe extract annotate track inp st).pose
            (runIteration fe extract annotate track inp st).t_MH
          = data st.pose st.t_MH) := by
  have hrun : runIteration fe extract annotate track inp st
      = { apply_inner st with
          displayed := (apply_inner st).displayed
            ++ [annotate inp.frame (extract (apply_inner st).extractor inp.frame)] } := by
    simp only [runIteration, hn, he, Bool.not_false, Bool.and_self, if_true]
    rw [if_neg hlen]
  refine ⟨?_, ?_, ?_⟩
  · rw [hrun]
    exact apply_inner_pose st
  · rw [hrun]
    rw [apply_inner_displayed st]
  · intro hpn
    rw [hrun, apply_inner_of_pending_none st hpn]

/-- C4 witness: a concrete iteration (new non-empty frame, empty detection
set, empty pending slot) leaves the stored pose unchanged. -/
theorem no_detections_pose_unchanged_witness :
    ((⟨true, ()⟩ : IterIn Unit).new_frame = true)
    ∧ ((fun (_ : Unit) => false) () = false)
    ∧ (emptyExtract (apply_inner st0).extractor ()).length ≠ PointModel.N_POINTS
    ∧ (runIteration (fun _ => false) emptyExtract (fun f _ => f) (fun _ _ p => p)
        ⟨true, ()⟩ st0).pose = st0.pose :=
  ⟨rfl, rfl, by decide,
   (no_detections_pose_unchanged (fun _ => false) emptyExtract (fun f _ => f)
      (fun _ _ p => p) ⟨true, ()⟩ st0 rfl rfl (by decide)).1⟩

/-- C9: PAUSE does not interfere with the loop: two runs whose observed
command words agree except possibly on the PAUSE bit, with the same
per-iteration frame inputs, produce identical tracker states — pose,
collaborator configurations and the published frame sequence. -/
theorem pause_noninterference
    (fe : Frame → Bool) (extract : ExtractorState → Frame → List Point)
    (annotate : Frame → List Point → Frame)
    (track : List Point → PointModel → Affine → Affine)
    (checks checks' : List (ℕ × IterIn Frame))
    (h : List.Forall₂
        (fun a b => a.1 ||| PAUSE = b.1 ||| PAUSE ∧ a.2 = b.2) checks checks')
    (st : TrackerState Frame) :
    runTracker fe extract annotate track checks st
      = runTracker fe extract annotate track checks' st := by
  induction h generalizing st with
  | nil => rfl
  | @cons a b l1 l2 hab htl ih =>
    obtain ⟨c, inp⟩ := a
    obtain ⟨c', inp'⟩ := b
    obtain ⟨hc, hi⟩ := hab
    obtain rfl : inp = inp' := hi
    have hA := and_abort_eq_of_lor_pause_eq hc
    simp only [runTracker]
    rw [hA]
    by_cases h0 : c' &&& ABORT = 0
    · rw [if_pos h0, if_pos h0]
      exact ih _
    · rw [if_neg h0, if_neg h0]

/-- C9 witness: a concrete two-check run and its PAUSE-toggled twin end in
the same state. -/
theorem pause_noninterference_witness :
    List.Forall₂
      (fun (a b : ℕ × IterIn Unit) => a.1 ||| PAUSE = b.1 ||| PAUSE ∧ a.2 = b.2)
      [(0, ⟨true, ()⟩), (ABORT, ⟨true, ()⟩)]
      [(PAUSE, ⟨true, ()⟩), (ABORT ||| PAUSE, ⟨true, ()⟩)]
    ∧ runTracker (fun _ => false) emptyExtract (fun f _ => f) (fun _ _ p => p)
        [(0, ⟨true, ()⟩), (ABORT, ⟨true, ()⟩)] st0
      = runTracker (fun _ => false) emptyExtract (fun f _ => f) (fun _ _ p => p)
        [(PAUSE, ⟨true, ()⟩), (ABORT ||| PAUSE, ⟨true, ()⟩)] st0 := by
  have hf : List.Forall₂
      (fun (a b : ℕ × IterIn Unit) => a.1 ||| PAUSE = b.1 ||| PAUSE ∧ a.2 = b.2)
      [(0, ⟨true, ()⟩), (ABORT, ⟨true, ()⟩)]
      [(PAUSE, ⟨true, ()⟩), (ABORT ||| PAUSE, ⟨true, ()⟩)] :=
    List.Forall₂.cons ⟨by decide, rfl⟩
      (List.Forall₂.cons ⟨by decide, rfl⟩ List.Forall₂.nil)
  exact ⟨hf,
    pause_noninterference (fun _ => false) emptyExtract (fun f _ => f)
      (fun _ _ p => p) _ _ hf st0⟩

/-- C10: a constructed-but-never-started `Tracker` has a null
`video_frame`, and its destructor dereferences that null pointer; after
`start_tracker` the pointer is non-null and destruction does not fault. -/
theorem destructor_requires_start :
    (trackerInit ℕ).video_frame = none
    ∧ trackerDestructor (trackerInit ℕ) = .error .nullDeref
    ∧ ∀ (st : LifeState ℕ) (p : ℕ),
        (start_tracker st p).video_frame = some p
        ∧ (trackerDestructor (start_tracker st p)).isOk = true :=
  ⟨rfl, rfl, fun _ _ => ⟨rfl, rfl⟩⟩

end PT
